import Mathlib

/-!
# ChatInterface.jsx: the session model of the chat content generator

A shallow embedding of `src/client/src/components/ChatInterface.jsx`.

React state is an explicit `State` record and every handler is a function on it.
The reads the component makes of its surroundings are explicit arguments:
the outcome of `Math.random().toString(36).slice(2, 9)` and of `Date.now()`
(a `Draw`), the answer of the generation service, the answer of
`window.confirm`, the content of `localStorage`.

`handleSend` is an async function with one suspension point, the awaited
generation call.  It is embedded as its two halves, `handleSendBegin` (the code
that runs before the call is awaited) and `handleSendSettle` (the code that runs
once the call has resolved); `handleSend` is one after the other with nothing in
between.
-/

namespace ChatInterface

/-! ## JavaScript strings -/

/-- ECMAScript `WhiteSpace` and `LineTerminator` code points: what
`String.prototype.trim` strips. -/
def isJsWhiteSpace (c : Char) : Bool :=
  let n := c.toNat
  n == 0x9 || n == 0xA || n == 0xB || n == 0xC || n == 0xD || n == 0x20 ||
  n == 0xA0 || n == 0x1680 || (0x2000 ≤ n && n ≤ 0x200A) ||
  n == 0x2028 || n == 0x2029 || n == 0x202F || n == 0x205F || n == 0x3000 ||
  n == 0xFEFF

/-- `String.prototype.trim`: white space removed from both ends. -/
def jsTrim (s : String) : String :=
  ⟨((s.data.dropWhile isJsWhiteSpace).reverse.dropWhile isJsWhiteSpace).reverse⟩

/-! ## Constants -/

/-- One entry of `PRESETS`. -/
structure Preset where
  id : String
  title : String
  prompt : String
  deriving DecidableEq, Repr

/-- The constant `PRESETS` (lines 4-29). -/
def PRESETS : List Preset :=
  [ { id := "blog-intro", title := "Blog intro",
      prompt := "Write an engaging 3-paragraph introduction about the mental health benefits of daily walks. Keep it friendly and informative." },
    { id := "tweet", title := "Tweet (280 chars)",
      prompt := "Share a short, punchy tweet about a new open-source project that helps developers automate boring tasks." },
    { id := "email", title := "Professional Email",
      prompt := "Write a concise professional email applying for a front-end developer internship, mentioning a GitHub portfolio and eagerness to learn." },
    { id := "product", title := "Product Description",
      prompt := "Write a short product description for a compact, eco-friendly reusable notebook. Highlight features and a call-to-action." } ]

/-- The constant `TONES` (line 31). -/
def TONES : List String := ["Friendly", "Professional", "Casual", "Persuasive"]

/-- The text `handleSend` shows when the generation call fails (line 103). -/
def errorPlaceholder : String := "⚠️ Error: Failed to generate content."

/-- The key the message sequence is stored under (line 56). -/
def storageKey : String := "ccg:messages:v1"

/-! ## Data model -/

/-- One element of the `messages` array, as `addMessage` builds it (line 76). -/
structure Message where
  id : String
  role : String
  text : String
  createdAt : Nat
  deriving DecidableEq, Repr

/-- The React state of `ChatContentGenerator` (lines 56-61). -/
structure State where
  messages : List Message
  prompt : String
  tone : String
  length : String
  isGenerating : Bool
  selectedPreset : Option String
  deriving DecidableEq, Repr

/-- The state of a freshly mounted component whose restored message sequence
is `messages` (the `useState` initial values of lines 57-61). -/
def mount (messages : List Message) : State :=
  { messages := messages, prompt := "", tone := "Friendly", length := "medium",
    isGenerating := false, selectedPreset := none }

/-- The two reads `addMessage` makes of its surroundings. -/
structure Draw where
  /-- The value of `Math.random().toString(36).slice(2, 9)`. -/
  rnd : String
  /-- The value of `Date.now()`. -/
  now : Nat
  deriving DecidableEq, Repr

/-- The function `uid` (lines 33-34): the given label, an underscore, the random
suffix.  Every call in the file passes the label. -/
def uid (label rnd : String) : String :=
  label ++ "_" ++ rnd

/-- The function `addMessage` (lines 73-78): the functional update appends one
message to whatever the sequence is at that moment. -/
def addMessage (d : Draw) (role text : String) (s : State) : State :=
  { s with messages := s.messages ++
      [{ id := uid role d.rnd, role := role, text := text, createdAt := d.now }] }

/-! ## handleSend -/

/-- Line 81: `fromPreset ? fromPreset.prompt : prompt.trim()`. -/
def userPrompt (fromPreset : Option Preset) (s : State) : String :=
  match fromPreset with
  | some p => p.prompt
  | none => jsTrim s.prompt

/-- The prompt text of a submission as the user gave it, before line 81 trims
anything: the prompt of the preset when one is passed, the draft otherwise. -/
def promptText (fromPreset : Option Preset) (s : State) : String :=
  match fromPreset with
  | some p => p.prompt
  | none => s.prompt

/-- Line 92: the template literal sent to the generation service. -/
def fullPrompt (userPrompt tone length : String) : String :=
  userPrompt ++ "\n\nTone: " ++ tone ++ "\nLength: " ++ length

/-- Lines 81-94 of `handleSend`: what runs before the generation call is
awaited.  The result is the new state and the request body handed to
`model.generateContent`, `none` when no call is made. -/
def handleSendBegin (d : Draw) (fromPreset : Option Preset) (s : State) :
    State × Option String :=
  let up := userPrompt fromPreset s
  if up = "" then (s, none)
  else
    let s₁ := addMessage d "user" up s
    let s₂ := { s₁ with prompt := "" }
    let s₃ := { s₂ with isGenerating := true }
    (s₃, some (fullPrompt up s.tone s.length))

/-- Lines 95-106 of `handleSend`: what runs once the awaited call has resolved,
with the text of the response or with a thrown error. -/
def handleSendSettle (d : Draw) (outcome : Except String String) (s : State) : State :=
  let s₁ :=
    match outcome with
    | .ok text => addMessage d "assistant" text s
    | .error _ => addMessage d "assistant" errorPlaceholder s
  { s₁ with isGenerating := false }

/-- What one complete run of `handleSend` reads from its surroundings. -/
structure SendEnv where
  /-- Read by the `addMessage` of line 84. -/
  userDraw : Draw
  /-- The generation service: the response text, or the error thrown. -/
  generateContent : String → Except String String
  /-- Read by the `addMessage` of line 100 or 103. -/
  replyDraw : Draw

/-- The function `handleSend` (lines 80-107) run to completion with no other
event in between.  The result is the final state and the request body sent,
`none` when no call was made. -/
def handleSend (env : SendEnv) (fromPreset : Option Preset) (s : State) :
    State × Option String :=
  match handleSendBegin env.userDraw fromPreset s with
  | (s₁, none) => (s₁, none)
  | (s₁, some body) =>
      (handleSendSettle env.replyDraw (env.generateContent body) s₁, some body)

/-! ## The event handlers -/

/-- The fields of a keyboard event `handleKeyDownPrompt` reads. -/
structure KeyEvent where
  ctrlKey : Bool
  metaKey : Bool
  key : String
  deriving DecidableEq, Repr

/-- The function `handleKeyDownPrompt` (lines 149-154).  The handler does not
await `handleSend`: it returns when `handleSend` reaches the awaited call. -/
def handleKeyDownPrompt (d : Draw) (e : KeyEvent) (s : State) : State × Option String :=
  if (e.ctrlKey || e.metaKey) && e.key == "Enter" then handleSendBegin d none s
  else (s, none)

/-- The function `handlePresetClick` (lines 109-112): `setSelectedPreset`, then
`handleSend(p)`, which is not awaited and reads no `selectedPreset`. -/
def handlePresetClick (d : Draw) (p : Preset) (s : State) : State × Option String :=
  handleSendBegin d (some p) { s with selectedPreset := some p.id }

/-- The Generate button (lines 270-276): `onClick={() => handleSend()}` with
`disabled={isGenerating}`; a disabled button delivers no click. -/
def clickGenerate (d : Draw) (s : State) : State × Option String :=
  if s.isGenerating then (s, none) else handleSendBegin d none s

/-- The function `clearHistory` (lines 114-116); `confirmed` is the answer of
`window.confirm`. -/
def clearHistory (confirmed : Bool) (s : State) : State :=
  if confirmed then { s with messages := [] } else s

/-- What can happen to a mounted component, as far as the message sequence is
concerned. -/
inductive Event where
  /-- `setPrompt`: the composer is edited (line 263) or cleared (line 278). -/
  | setPrompt (text : String)
  /-- `setTone` (line 183). -/
  | setTone (tone : String)
  /-- `setLength` (line 198). -/
  | setLength (length : String)
  /-- A click on the Generate button. -/
  | generate (d : Draw)
  /-- A key pressed in the composer. -/
  | keyDown (d : Draw) (e : KeyEvent)
  /-- A click on a preset. -/
  | preset (d : Draw) (p : Preset)
  /-- An awaited generation call resolves and the rest of `handleSend` runs. -/
  | settle (d : Draw) (outcome : Except String String)
  /-- A click on Clear in the sidebar. -/
  | clear (confirmed : Bool)

/-- The state after one event. -/
def step (s : State) : Event → State
  | .setPrompt text => { s with prompt := text }
  | .setTone tone => { s with tone := tone }
  | .setLength length => { s with length := length }
  | .generate d => (clickGenerate d s).1
  | .keyDown d e => (handleKeyDownPrompt d e s).1
  | .preset d p => (handlePresetClick d p s).1
  | .settle d outcome => handleSendSettle d outcome s
  | .clear confirmed => clearHistory confirmed s

/-- The state after a sequence of events. -/
def run (s : State) (events : List Event) : State :=
  events.foldl step s

/-- The label and the random suffix an event has ready for `uid`. -/
def Event.draw : Event → Option (String × String)
  | .generate d => some ("user", d.rnd)
  | .keyDown d _ => some ("user", d.rnd)
  | .preset d _ => some ("user", d.rnd)
  | .settle d _ => some ("assistant", d.rnd)
  | _ => none

/-- The calls of `uid` made along a sequence of events from state `s`, each as
its label and the random suffix it drew, in order.  An event that appends no
message calls `uid` not at all. -/
def uidCalls (s : State) : List Event → List (String × String)
  | [] => []
  | e :: es =>
      (if (step s e).messages.length = s.messages.length + 1 then e.draw.toList else []) ++
        uidCalls (step s e) es

/-- One submission made from an idle composer and run to completion: the user
types `draft` (or clicks a preset), picks tone and length, and `handleSend`
runs to its end. -/
structure Submission where
  draft : String
  fromPreset : Option Preset
  tone : String
  length : String
  env : SendEnv

/-- The state after one submission. -/
def submit (s : State) (x : Submission) : State :=
  (handleSend x.env x.fromPreset
    { s with prompt := x.draft, tone := x.tone, length := x.length }).1

/-- The prompt text a submission sends. -/
def Submission.text (x : Submission) : String :=
  match x.fromPreset with
  | some p => p.prompt
  | none => jsTrim x.draft

/-! ## Export -/

/-- The locale- and engine-dependent string functions `downloadTxt` calls. -/
structure Host where
  /-- `String.prototype.toUpperCase`. -/
  toUpperCase : String → String
  /-- `new Date(ms).toLocaleString()`. -/
  toLocaleString : Nat → String
  /-- `new Date(ms).toISOString()`. -/
  toISOString : Nat → String

/-- The template literal of lines 122-124: one message of the transcript. -/
def transcriptEntry (h : Host) (m : Message) : String :=
  h.toUpperCase m.role ++ " - " ++ h.toLocaleString m.createdAt ++ "\n" ++ m.text ++ "\n\n"

/-- The file `downloadTxt` hands to the browser. -/
structure Download where
  name : String
  content : String
  deriving DecidableEq, Repr

/-- The function `downloadTxt` (lines 118-135): the state it leaves and the file
it offers; `now` is the time of the click. -/
def downloadTxt (h : Host) (now : Nat) (s : State) : State × Download :=
  (s, { name := "content_" ++ h.toISOString now ++ ".txt",
        content := String.join (s.messages.map (transcriptEntry h)) })

/-! ## JSON

`JSON.parse` and `JSON.stringify` are functions of the JavaScript engine, not of
this repository.  `JSON.parse` is embedded after ECMA-404 as a deterministic
automaton with a stack, one step per character, so it is total and needs no
fuel.  Two things are not modelled: a number keeps the text of its literal
(doubles are not modelled), and a string is a sequence of Unicode scalar values,
so a lone surrogate written as an escape becomes U+FFFD.  The members of an
object are kept in the order of the text, equal keys included. -/

/-- A value `JSON.parse` returns. -/
inductive JValue where
  | null
  | bool (b : Bool)
  | num (literal : String)
  | str (s : String)
  | arr (items : List JValue)
  | obj (members : List (String × JValue))

namespace JSON

/-- An enclosing array or object whose current value is being read; what has
been read of it is kept last first. -/
inductive Frame where
  | arr (items : List JValue)
  | obj (members : List (String × JValue)) (key : String)

/-- Where inside a number literal the automaton is. -/
inductive NumState where
  | minus | zero | int | dot | frac | exp | expSign | expDigits
  deriving DecidableEq

/-- What the string being read is: a value, or the key of the next member of an
object whose earlier members are given. -/
inductive StrCtx where
  | value
  | key (members : List (String × JValue))

/-- The control state of the automaton. -/
inductive Mode where
  /-- A value must start. -/
  | value
  /-- After `[`: a value or `]`. -/
  | arrStart
  /-- After `{`: a key or `}`. -/
  | objStart
  /-- After `,` in an object: a key. -/
  | objKey (members : List (String × JValue))
  /-- After a key: `:`. -/
  | objColon (members : List (String × JValue)) (key : String)
  /-- Inside a string; its UTF-16 code units so far, last first. -/
  | str (ctx : StrCtx) (units : List Nat)
  /-- After a backslash inside a string. -/
  | esc (ctx : StrCtx) (units : List Nat)
  /-- Inside `\uXXXX`, after `count` hex digits of value `acc`. -/
  | hex (ctx : StrCtx) (units : List Nat) (count acc : Nat)
  /-- Inside a number; its characters so far, last first. -/
  | num (st : NumState) (chars : List Char)
  /-- Inside `true`, `false` or `null`; the characters still to come. -/
  | lit (rest : List Char) (v : JValue)
  /-- After an element of the array on top of the stack: `,` or `]`. -/
  | afterElem
  /-- After a member of an object: `,` or `}`. -/
  | afterMember (members : List (String × JValue))
  /-- The whole value has been read; only white space may follow. -/
  | done (v : JValue)

/-- The four JSON white space characters. -/
def isWs (c : Char) : Bool :=
  c.toNat == 0x20 || c.toNat == 0x9 || c.toNat == 0xA || c.toNat == 0xD

/-- Is the character a decimal digit. -/
def isDigit (c : Char) : Bool :=
  0x30 ≤ c.toNat && c.toNat ≤ 0x39

/-- The value of a hexadecimal digit. -/
def hexVal (c : Char) : Option Nat :=
  let n := c.toNat
  if 0x30 ≤ n && n ≤ 0x39 then some (n - 0x30)
  else if 0x41 ≤ n && n ≤ 0x46 then some (n - 0x41 + 10)
  else if 0x61 ≤ n && n ≤ 0x66 then some (n - 0x61 + 10)
  else none

/-- The UTF-16 code units of a character, last first. -/
def unitsOf (c : Char) : List Nat :=
  let n := c.toNat
  if n < 0x10000 then [n]
  else [0xDC00 + (n - 0x10000) % 0x400, 0xD800 + (n - 0x10000) / 0x400]

/-- The character of one code unit; U+FFFD for a surrogate standing alone. -/
def unitChar (u : Nat) : Char :=
  if 0xD800 ≤ u && u ≤ 0xDFFF then Char.ofNat 0xFFFD else Char.ofNat u

/-- The characters of a sequence of UTF-16 code units. -/
def utf16Decode : List Nat → List Char
  | [] => []
  | [u] => [unitChar u]
  | hi :: lo :: rest =>
      if 0xD800 ≤ hi && hi ≤ 0xDBFF && 0xDC00 ≤ lo && lo ≤ 0xDFFF then
        Char.ofNat (0x10000 + (hi - 0xD800) * 0x400 + (lo - 0xDC00)) :: utf16Decode rest
      else unitChar hi :: utf16Decode (lo :: rest)

/-- A value is complete: it is the result, or goes into the enclosing array or
object. -/
def complete (v : JValue) : List Frame → Mode × List Frame
  | [] => (.done v, [])
  | .arr items :: stack => (.afterElem, .arr (v :: items) :: stack)
  | .obj members key :: stack => (.afterMember ((key, v) :: members), stack)

/-- The first character of a value. -/
def startValue (c : Char) (stack : List Frame) : Option (Mode × List Frame) :=
  let n := c.toNat
  if n == 0x22 then some (.str .value [], stack)
  else if n == 0x5B then some (.arrStart, .arr [] :: stack)
  else if n == 0x7B then some (.objStart, stack)
  else if n == 0x2D then some (.num .minus [c], stack)
  else if n == 0x30 then some (.num .zero [c], stack)
  else if isDigit c then some (.num .int [c], stack)
  else if n == 0x74 then some (.lit "rue".data (.bool true), stack)
  else if n == 0x66 then some (.lit "alse".data (.bool false), stack)
  else if n == 0x6E then some (.lit "ull".data .null, stack)
  else none

/-- A character after a complete value. -/
def afterStep (c : Char) : Mode × List Frame → Option (Mode × List Frame)
  | (.afterElem, .arr items :: stack) =>
      if isWs c then some (.afterElem, .arr items :: stack)
      else if c.toNat == 0x2C then some (.value, .arr items :: stack)
      else if c.toNat == 0x5D then some (complete (.arr items.reverse) stack)
      else none
  | (.afterMember members, stack) =>
      if isWs c then some (.afterMember members, stack)
      else if c.toNat == 0x2C then some (.objKey members, stack)
      else if c.toNat == 0x7D then some (complete (.obj members.reverse) stack)
      else none
  | (.done v, stack) => if isWs c then some (.done v, stack) else none
  | _ => none

/-- A character inside a number: the next state of the number, `none` when the
character does not continue it. -/
def numStep (c : Char) : NumState → Option NumState
  | .minus => if c.toNat == 0x30 then some .zero else if isDigit c then some .int else none
  | .zero =>
      if c.toNat == 0x2E then some .dot
      else if c.toNat == 0x65 || c.toNat == 0x45 then some .exp else none
  | .int =>
      if isDigit c then some .int
      else if c.toNat == 0x2E then some .dot
      else if c.toNat == 0x65 || c.toNat == 0x45 then some .exp else none
  | .dot => if isDigit c then some .frac else none
  | .frac =>
      if isDigit c then some .frac
      else if c.toNat == 0x65 || c.toNat == 0x45 then some .exp else none
  | .exp =>
      if c.toNat == 0x2B || c.toNat == 0x2D then some .expSign
      else if isDigit c then some .expDigits else none
  | .expSign => if isDigit c then some .expDigits else none
  | .expDigits => if isDigit c then some .expDigits else none

/-- May a number end in this state. -/
def NumState.accepting : NumState → Bool
  | .zero | .int | .frac | .expDigits => true
  | _ => false

/-- The code unit a one-character escape stands for. -/
def escapeUnit (c : Char) : Option Nat :=
  let n := c.toNat
  if n == 0x22 || n == 0x5C || n == 0x2F then some n
  else if n == 0x62 then some 0x8
  else if n == 0x66 then some 0xC
  else if n == 0x6E then some 0xA
  else if n == 0x72 then some 0xD
  else if n == 0x74 then some 0x9
  else none

/-- One step of the automaton: the next character is read. -/
def step (cfg : Mode × List Frame) (c : Char) : Option (Mode × List Frame) :=
  match cfg with
  | (.value, stack) => if isWs c then some (.value, stack) else startValue c stack
  | (.arrStart, stack) =>
      if isWs c then some (.arrStart, stack)
      else if c.toNat == 0x5D then
        match stack with
        | .arr _ :: rest => some (complete (.arr []) rest)
        | _ => none
      else startValue c stack
  | (.objStart, stack) =>
      if isWs c then some (.objStart, stack)
      else if c.toNat == 0x22 then some (.str (.key []) [], stack)
      else if c.toNat == 0x7D then some (complete (.obj []) stack)
      else none
  | (.objKey members, stack) =>
      if isWs c then some (.objKey members, stack)
      else if c.toNat == 0x22 then some (.str (.key members) [], stack)
      else none
  | (.objColon members key, stack) =>
      if isWs c then some (.objColon members key, stack)
      else if c.toNat == 0x3A then some (.value, .obj members key :: stack)
      else none
  | (.str ctx units, stack) =>
      if c.toNat == 0x22 then
        let s : String := ⟨utf16Decode units.reverse⟩
        match ctx with
        | .value => some (complete (.str s) stack)
        | .key members => some (.objColon members s, stack)
      else if c.toNat == 0x5C then some (.esc ctx units, stack)
      else if c.toNat < 0x20 then none
      else some (.str ctx (unitsOf c ++ units), stack)
  | (.esc ctx units, stack) =>
      if c.toNat == 0x75 then some (.hex ctx units 0 0, stack)
      else
        match escapeUnit c with
        | some u => some (.str ctx (u :: units), stack)
        | none => none
  | (.hex ctx units count acc, stack) =>
      match hexVal c with
      | some d =>
          if count == 3 then some (.str ctx ((acc * 16 + d) :: units), stack)
          else some (.hex ctx units (count + 1) (acc * 16 + d), stack)
      | none => none
  | (.num st chars, stack) =>
      match numStep c st with
      | some st' => some (.num st' (c :: chars), stack)
      | none =>
          if st.accepting then afterStep c (complete (.num ⟨chars.reverse⟩) stack)
          else none
  | (.lit rest v, stack) =>
      match rest with
      | [] => none
      | [x] => if c == x then some (complete v stack) else none
      | x :: xs => if c == x then some (.lit xs v, stack) else none
  | cfg => afterStep c cfg

/-- The end of the text: the value read, if the text was one whole value. -/
def finish : Mode × List Frame → Option JValue
  | (.done v, []) => some v
  | (.num st chars, []) => if st.accepting then some (.num ⟨chars.reverse⟩) else none
  | _ => none

/-- `JSON.parse(text)`: the value, or the `SyntaxError` thrown. -/
def parse (text : String) : Except String JValue :=
  match text.data.foldlM step (Mode.value, []) >>= finish with
  | some v => .ok v
  | none => .error "SyntaxError"

/-- The text `JSON.stringify` writes for one character of a string. -/
def quoteChar (c : Char) : String :=
  let n := c.toNat
  if n == 0x22 then "\\\""
  else if n == 0x5C then "\\\\"
  else if n == 0x8 then "\\b"
  else if n == 0xC then "\\f"
  else if n == 0xA then "\\n"
  else if n == 0xD then "\\r"
  else if n == 0x9 then "\\t"
  else if n < 0x20 then
    "\\u00" ++ String.singleton (Nat.digitChar (n / 16)) ++ String.singleton (Nat.digitChar (n % 16))
  else String.singleton c

/-- `JSON.stringify` of a string: ECMAScript `QuoteJSONString`. -/
def quote (s : String) : String :=
  "\"" ++ String.join (s.data.map quoteChar) ++ "\""

/-- `JSON.stringify` of one message: its four own properties in creation
order. -/
def stringifyMessage (m : Message) : String :=
  "\x7b\"id\":" ++ quote m.id ++ ",\"role\":" ++ quote m.role ++ ",\"text\":" ++ quote m.text ++
    ",\"createdAt\":" ++ toString m.createdAt ++ "\x7d"

/-- `JSON.stringify(messages)` for an array of messages. -/
def stringify (messages : List Message) : String :=
  "[" ++ ",".intercalate (messages.map stringifyMessage) ++ "]"

end JSON

/-! ## localStorage and the hook `useLocalStorage` -/

/-- The browser's `localStorage`, an external key-value store. -/
structure LocalStorage where
  /-- The stored pairs. -/
  items : List (String × String)
  /-- Every access throws (storage switched off for the page). -/
  denied : Bool
  /-- Every write throws (no room left). -/
  full : Bool
  deriving DecidableEq, Repr

/-- `localStorage.getItem(key)`: the stored text or `null`, or the error thrown. -/
def LocalStorage.getItem (ls : LocalStorage) (key : String) : Except String (Option String) :=
  if ls.denied then .error "SecurityError" else .ok (ls.items.lookup key)

/-- `localStorage.setItem(key, value)`: the store afterwards, or the error thrown. -/
def LocalStorage.setItem (ls : LocalStorage) (key value : String) : Except String LocalStorage :=
  if ls.denied then .error "SecurityError"
  else if ls.full then .error "QuotaExceededError"
  else .ok { ls with items := (key, value) :: ls.items.filter (fun kv => kv.1 != key) }

/-- The initial state of `useLocalStorage(key, initial)` (lines 37-44): the `try`
block is the `Except` computation, the `catch` its error case; `raw ? a : b`
takes `b` for `null` and for the empty string. -/
def useLocalStorage (ls : LocalStorage) (key : String) (initial : JValue) : JValue :=
  let attempt : Except String JValue := do
    let raw ← ls.getItem key
    match raw with
    | some text => if text = "" then pure initial else JSON.parse text
    | none => pure initial
  match attempt with
  | .ok v => v
  | .error _ => initial

/-- The effect of `useLocalStorage` (lines 46-50) for the message sequence: the
store after the write, unchanged when the write throws. -/
def useLocalStorageEffect (ls : LocalStorage) (key : String) (messages : List Message) :
    LocalStorage :=
  match ls.setItem key (JSON.stringify messages) with
  | .ok ls' => ls'
  | .error _ => ls

/-- Line 56: the value the component starts with as `messages`. -/
def restore (ls : LocalStorage) : JValue :=
  useLocalStorage ls storageKey (.arr [])

/-! ## The invariant of message ids -/

/-- The invariant behind distinct ids: every id in the sequence was made by `uid`
from a call in `calls`, and the ids are pairwise distinct. -/
def IdsFrom (calls : List (String × String)) (s : State) : Prop :=
  (s.messages.map Message.id).Nodup ∧
  ∀ m ∈ s.messages, ∃ role r, (role, r) ∈ calls ∧
    (role = "user" ∨ role = "assistant") ∧ m.id = uid role r

/-! ## Sample inputs -/

/-- Surroundings in which the generation service answers `"Why did..."`. -/
def jokeEnv : SendEnv :=
  { userDraw := ⟨"k3x9a2b", 1730000000000⟩,
    generateContent := fun _ => .ok "Why did...",
    replyDraw := ⟨"p0q8r7s", 1730000001500⟩ }

/-- Surroundings in which the generation service throws. -/
def failingEnv : SendEnv :=
  { userDraw := ⟨"k3x9a2b", 1730000000000⟩,
    generateContent := fun _ => .error "503 Service Unavailable",
    replyDraw := ⟨"p0q8r7s", 1730000001500⟩ }

/-- An idle session with an empty history and the draft `"Tell me a joke"`. -/
def jokeDraft : State :=
  { mount [] with prompt := "Tell me a joke", length := "short" }

/-- A session whose first generation call is still pending while the user has
typed a second draft. -/
def busy : State :=
  run (mount []) [.setPrompt "Tell me a joke", .generate ⟨"k3x9a2b", 1730000000000⟩,
    .setPrompt "And another"]

/-- Ctrl+Enter. -/
def ctrlEnter : KeyEvent := { ctrlKey := true, metaKey := false, key := "Enter" }

/-- The third entry of `PRESETS`. -/
def emailPreset : Preset :=
  { id := "email", title := "Professional Email",
    prompt := "Write a concise professional email applying for a front-end developer internship, mentioning a GitHub portfolio and eagerness to learn." }

/-- A session with a one-exchange history. -/
def chatted : State :=
  (handleSend jokeEnv none jokeDraft).1

/-- A session with a one-exchange history, a draft with white space around it,
the tone Casual and the length short. -/
def haikuAfterChat : State :=
  { chatted with
    prompt := "  Write a haiku\n", tone := "Casual", length := "short",
    selectedPreset := some "tweet" }

/-- A fresh session with the draft `"Write a haiku"`, the tone Casual and the
length short. -/
def haikuFresh : State :=
  { mount [] with prompt := "Write a haiku", tone := "Casual", length := "short" }

/-- An idle session whose draft is white space only. -/
def blankDraft : State :=
  { chatted with prompt := " \t\n " }

/-- A working store that holds `text` under the component's key. -/
def storeWith (text : String) : LocalStorage :=
  { items := [(storageKey, text)], denied := false, full := false }

/-- Surroundings in which the generation service answers with an email. -/
def emailEnv : SendEnv :=
  { userDraw := ⟨"a1b2c3d", 1730000040000⟩,
    generateContent := fun _ => .ok "Dear hiring team,\n\nI am writing to apply ...",
    replyDraw := ⟨"e4f5g6h", 1730000042300⟩ }

/-- Two submissions in a row, both answered: a typed draft, then the email
preset. -/
def twoSubmissions : List Submission :=
  [ { draft := " Tell me a joke ", fromPreset := none, tone := "Friendly", length := "short",
      env := jokeEnv },
    { draft := "", fromPreset := some emailPreset, tone := "Professional", length := "long",
      env := emailEnv } ]

/-- Two submissions for which `Math.random` yields the same suffix twice. -/
def collidingEvents : List Event :=
  [ .setPrompt "Tell me a joke", .generate ⟨"k3x9a2b", 1730000000000⟩,
    .settle ⟨"p0q8r7s", 1730000001500⟩ (.ok "Why did..."),
    .setPrompt "And another", .generate ⟨"k3x9a2b", 1730000009000⟩ ]

/-- Two submissions with four different suffixes, the second sent by Ctrl+Enter
while the first call is pending. -/
def overlappingEvents : List Event :=
  [ .setPrompt "Tell me a joke", .generate ⟨"k3x9a2b", 1730000000000⟩,
    .setPrompt "And another", .keyDown ⟨"a1b2c3d", 1730000000700⟩ ctrlEnter,
    .settle ⟨"p0q8r7s", 1730000001500⟩ (.ok "Why did..."),
    .settle ⟨"e4f5g6h", 1730000002100⟩ (.error "timeout") ]

/-! ## handleSend: the successful and the failing run -/

theorem handleSendBegin_of_ne (d : Draw) (fromPreset : Option Preset) (s : State)
    (h : userPrompt fromPreset s ≠ "") :
    handleSendBegin d fromPreset s =
      ({ s with
          messages := s.messages ++
            [{ id := uid "user" d.rnd, role := "user", text := userPrompt fromPreset s,
               createdAt := d.now }],
          prompt := "", isGenerating := true },
       some (fullPrompt (userPrompt fromPreset s) s.tone s.length)) := by
  simp [handleSendBegin, h, addMessage]

theorem handleSendBegin_of_eq (d : Draw) (fromPreset : Option Preset) (s : State)
    (h : userPrompt fromPreset s = "") :
    handleSendBegin d fromPreset s = (s, none) := by
  simp [handleSendBegin, h]

/-- A complete run of `handleSend` with a non-empty prompt text, whatever the
generation service does. -/
theorem handleSend_of_ne (env : SendEnv) (fromPreset : Option Preset) (s : State)
    (h : userPrompt fromPreset s ≠ "") :
    handleSend env fromPreset s =
      ({ s with
          messages := s.messages ++
            [ { id := uid "user" env.userDraw.rnd, role := "user",
                text := userPrompt fromPreset s, createdAt := env.userDraw.now },
              { id := uid "assistant" env.replyDraw.rnd, role := "assistant",
                text :=
                  match env.generateContent
                      (fullPrompt (userPrompt fromPreset s) s.tone s.length) with
                  | .ok text => text
                  | .error _ => errorPlaceholder,
                createdAt := env.replyDraw.now } ],
          prompt := "", isGenerating := false },
       some (fullPrompt (userPrompt fromPreset s) s.tone s.length)) := by
  have hb := handleSendBegin_of_ne env.userDraw fromPreset s h
  simp only [handleSend, hb, handleSendSettle]
  cases env.generateContent (fullPrompt (userPrompt fromPreset s) s.tone s.length) <;>
    simp [addMessage]

/-- C1: from any session whose draft is non-empty after trimming, a run of
`handleSend` whose generation call returns `r` ends with the message sequence
extended by a user message with the trimmed draft and an assistant message with
`r` unchanged, the draft empty and `isGenerating` false.  The session need not
even be idle. -/
theorem handleSend_success (s : State) (env : SendEnv) (r : String)
    (hp : jsTrim s.prompt ≠ "")
    (hr : env.generateContent (fullPrompt (jsTrim s.prompt) s.tone s.length) = .ok r) :
    (handleSend env none s).1.messages = s.messages ++
      [ { id := uid "user" env.userDraw.rnd, role := "user", text := jsTrim s.prompt,
          createdAt := env.userDraw.now },
        { id := uid "assistant" env.replyDraw.rnd, role := "assistant", text := r,
          createdAt := env.replyDraw.now } ] ∧
    (handleSend env none s).1.prompt = "" ∧
    (handleSend env none s).1.isGenerating = false := by
  have h := handleSend_of_ne env none s hp
  simp only [userPrompt] at h
  simp [h, hr]

/-- C1 at the spec's scenario: the draft `"Tell me a joke"`, the reply
`"Why did..."`, an empty history. -/
theorem handleSend_success_witness :
    (handleSend jokeEnv none jokeDraft).1.messages =
      [ { id := "user_k3x9a2b", role := "user", text := "Tell me a joke",
          createdAt := 1730000000000 },
        { id := "assistant_p0q8r7s", role := "assistant", text := "Why did...",
          createdAt := 1730000001500 } ] ∧
    (handleSend jokeEnv none jokeDraft).1.prompt = "" ∧
    (handleSend jokeEnv none jokeDraft).1.isGenerating = false :=
  handleSend_success jokeDraft jokeEnv "Why did..." (by decide) rfl

/-- C2: when the generation call of a run of `handleSend` throws `e`, the run
ends with the message sequence extended by the user message and exactly one
assistant message, whose text is the fixed placeholder whatever `e` is, and with
`isGenerating` false.  A call is made exactly when the prompt text is not
empty. -/
theorem handleSend_failure (s : State) (env : SendEnv) (fromPreset : Option Preset)
    (e : String)
    (hp : userPrompt fromPreset s ≠ "")
    (he : env.generateContent (fullPrompt (userPrompt fromPreset s) s.tone s.length) =
      .error e) :
    (handleSend env fromPreset s).1.messages = s.messages ++
      [ { id := uid "user" env.userDraw.rnd, role := "user",
          text := userPrompt fromPreset s, createdAt := env.userDraw.now },
        { id := uid "assistant" env.replyDraw.rnd, role := "assistant",
          text := "⚠️ Error: Failed to generate content.",
          createdAt := env.replyDraw.now } ] ∧
    (handleSend env fromPreset s).1.isGenerating = false := by
  have h := handleSend_of_ne env fromPreset s hp
  simp [h, he, errorPlaceholder]

/-- C2 at the spec's failure scenario. -/
theorem handleSend_failure_witness :
    (handleSend failingEnv none jokeDraft).1.messages =
      [ { id := "user_k3x9a2b", role := "user", text := "Tell me a joke",
          createdAt := 1730000000000 },
        { id := "assistant_p0q8r7s", role := "assistant",
          text := "⚠️ Error: Failed to generate content.",
          createdAt := 1730000001500 } ] ∧
    (handleSend failingEnv none jokeDraft).1.isGenerating = false :=
  handleSend_failure jokeDraft failingEnv none "503 Service Unavailable" (by decide) rfl

/-! ## Submitting while a call is pending -/

/-- C3, the code at the failing input: in a session whose generation call is
pending, the Generate button does nothing, but Ctrl+Enter and a preset click both
append a user message and start a second call. -/
theorem handleKeyDownPrompt_while_generating :
    busy.isGenerating = true ∧
    busy.messages.length = 1 ∧
    clickGenerate ⟨"zzzzzzz", 1730000000700⟩ busy = (busy, none) ∧
    (handleKeyDownPrompt ⟨"zzzzzzz", 1730000000700⟩ ctrlEnter busy).1.messages.length = 2 ∧
    (handleKeyDownPrompt ⟨"zzzzzzz", 1730000000700⟩ ctrlEnter busy).2 =
      some "And another\n\nTone: Friendly\nLength: medium" ∧
    (handlePresetClick ⟨"zzzzzzz", 1730000000700⟩ emailPreset busy).1.messages.length = 2 ∧
    (handlePresetClick ⟨"zzzzzzz", 1730000000700⟩ emailPreset busy).2 =
      some "Write a concise professional email applying for a front-end developer internship, mentioning a GitHub portfolio and eagerness to learn.\n\nTone: Friendly\nLength: medium" := by
  decide

/-! ## The empty prompt -/

/-- No entry of `PRESETS` has a prompt that is empty after trimming. -/
theorem PRESETS_prompt_not_blank : ∀ p ∈ PRESETS, jsTrim p.prompt ≠ "" := by
  decide

/-- C5: `handleSend` is called with no argument (lines 152 and 271) or with an
entry of `PRESETS` (lines 111 and 165).  For every such submission whose prompt
text, the draft or the preset's prompt, is empty after trimming white space,
`handleSend` leaves the whole session as it was (no message appended, draft and
`isGenerating` unchanged) and makes no generation call. -/
theorem handleSend_empty_prompt (env : SendEnv) (fromPreset : Option Preset) (s : State)
    (hfrom : ∀ p, fromPreset = some p → p ∈ PRESETS)
    (hblank : jsTrim (promptText fromPreset s) = "") :
    handleSend env fromPreset s = (s, none) := by
  have hu : userPrompt fromPreset s = "" := by
    cases fromPreset with
    | none => exact hblank
    | some p => exact absurd hblank (PRESETS_prompt_not_blank p (hfrom p rfl))
  simp [handleSend, handleSendBegin_of_eq _ _ _ hu]

/-- C5 at a draft of blanks, a tab and a newline, after one exchange. -/
theorem handleSend_empty_prompt_witness :
    handleSend jokeEnv none blankDraft = (blankDraft, none) :=
  handleSend_empty_prompt jokeEnv none blankDraft (fun _ h => nomatch h) (by decide)

/-! ## The request body -/

/-- C7: the request body `handleSend` sends is the prompt text, a blank line,
`Tone: ` and the tone, a newline, `Length: ` and the length; any other run with
the same prompt text, tone and length sends the same body, whatever its
history, draft white space, preset selection or surroundings. -/
theorem handleSend_request_body (env env' : SendEnv) (fromPreset fromPreset' : Option Preset)
    (s s' : State)
    (hp : userPrompt fromPreset s ≠ "")
    (hprompt : userPrompt fromPreset' s' = userPrompt fromPreset s)
    (htone : s'.tone = s.tone) (hlength : s'.length = s.length) :
    (handleSend env fromPreset s).2 =
      some (userPrompt fromPreset s ++ "\n\nTone: " ++ s.tone ++ "\nLength: " ++ s.length) ∧
    (handleSend env' fromPreset' s').2 = (handleSend env fromPreset s).2 := by
  have h := handleSend_of_ne env fromPreset s hp
  have h' := handleSend_of_ne env' fromPreset' s' (hprompt ▸ hp)
  rw [h, h', hprompt, htone, hlength]
  exact ⟨rfl, rfl⟩

/-- C7 at the spec's example: `"Write a haiku"`, Casual, short, once from a
fresh session and once after an exchange, with a failing service. -/
theorem handleSend_request_body_witness :
    (handleSend jokeEnv none haikuFresh).2 =
      some "Write a haiku\n\nTone: Casual\nLength: short" ∧
    (handleSend failingEnv none haikuAfterChat).2 = (handleSend jokeEnv none haikuFresh).2 :=
  handleSend_request_body jokeEnv failingEnv none none haikuFresh haikuAfterChat
    (by decide) (by decide) rfl rfl

/-! ## clearHistory -/

/-- C8 as stated fails: `clearHistory` itself asks for confirmation, and when
the user declines the message sequence stays as it was. -/
theorem clearHistory_declined_keeps :
    (clearHistory false chatted).messages.length = 2 ∧
    (clearHistory false chatted).messages ≠ [] := by
  decide

/-- C8 amended: `clearHistory` asks `window.confirm`; when the user confirms,
the message sequence afterwards is empty, and the value the effect then writes
to a working store under the component's key is `[]`, the serialisation of the
empty sequence; when the user declines, the session is unchanged. -/
theorem clearHistory_confirmed (s : State) (ls : LocalStorage)
    (hd : ls.denied = false) (hf : ls.full = false) :
    (clearHistory true s).messages = [] ∧
    (useLocalStorageEffect ls storageKey (clearHistory true s).messages).getItem storageKey =
      .ok (some "[]") ∧
    clearHistory false s = s := by
  refine ⟨rfl, ?_, rfl⟩
  simp only [clearHistory, if_true, useLocalStorageEffect, LocalStorage.setItem, hd, hf,
    LocalStorage.getItem]
  simp [JSON.stringify, List.lookup]
  rfl

/-- C8 amended, at a session with two messages and a store holding them. -/
theorem clearHistory_confirmed_witness :
    (clearHistory true chatted).messages = [] ∧
    (useLocalStorageEffect (storeWith (JSON.stringify chatted.messages)) storageKey
        (clearHistory true chatted).messages).getItem storageKey = .ok (some "[]") ∧
    clearHistory false chatted = chatted :=
  clearHistory_confirmed chatted (storeWith (JSON.stringify chatted.messages)) rfl rfl

/-! ## Restoring the message sequence -/

/-- C6 as stated fails: a stored text that parses as JSON is returned as parsed,
whatever it is; the stored texts `5`, `null` and `{}` restore to a number,
`null` and an object, none of them the empty sequence. -/
theorem restore_parsed_non_sequence :
    restore (storeWith "5") = .num "5" ∧
    restore (storeWith "null") = .null ∧
    restore (storeWith "\x7b\x7d") = .obj [] ∧
    restore (storeWith "5") ≠ .arr [] ∧
    restore (storeWith "null") ≠ .arr [] ∧
    restore (storeWith "\x7b\x7d") ≠ .arr [] := by
  have h5 : restore (storeWith "5") = .num "5" := rfl
  have hn : restore (storeWith "null") = .null := rfl
  have ho : restore (storeWith "\x7b\x7d") = .obj [] := rfl
  refine ⟨h5, hn, ho, ?_, ?_, ?_⟩
  · rw [h5]; intro h; cases h
  · rw [hn]; intro h; cases h
  · rw [ho]; intro h; cases h

/-- C6 amended: `restore` is a total function (it never raises), and it yields
the empty sequence whenever reading the store throws, nothing is stored under
the key, the stored text is empty, or the stored text is not parsable as
JSON. -/
theorem restore_missing_or_unparsable (ls : LocalStorage)
    (h : ls.denied = true ∨ ls.items.lookup storageKey = none ∨
      ls.items.lookup storageKey = some "" ∨
      ∃ text e, ls.items.lookup storageKey = some text ∧ JSON.parse text = .error e) :
    restore ls = .arr [] := by
  unfold restore useLocalStorage LocalStorage.getItem
  rcases h with hd | hn | he | ⟨text, e, ht, hp⟩
  · simp [hd, bind, Except.bind]
  · cases hden : ls.denied <;> simp [hn, bind, Except.bind, pure, Except.pure]
  · cases hden : ls.denied <;> simp [he, bind, Except.bind, pure, Except.pure]
  · cases hden : ls.denied <;> simp [ht, hp, bind, Except.bind, pure, Except.pure]
    by_cases hempty : text = "" <;> simp [hempty]

/-- C6 amended, at a stored text cut off in the middle of a message. -/
theorem restore_missing_or_unparsable_witness :
    restore (storeWith "[\x7b\"id\":\"user_k3x9a2b\",\"role\":\"us") = .arr [] :=
  restore_missing_or_unparsable (storeWith "[\x7b\"id\":\"user_k3x9a2b\",\"role\":\"us")
    (Or.inr (Or.inr (Or.inr ⟨_, _, rfl, rfl⟩)))

/-! ## The transcript -/

/-- C9: `downloadTxt` leaves the session as it is, and the transcript it builds
is the concatenation, message by message in the order of the sequence, of the
upper-cased role, ` - `, the rendering of `createdAt`, a newline, the text and
a blank line: empty for the empty sequence, the entry of the first message
followed by the transcript of the rest otherwise.  For two messages it is the
first label and body followed by the second label and body. -/
theorem downloadTxt_transcript (h : Host) (now : Nat) (s : State) (m₁ m₂ : Message)
    (ms : List Message) :
    (downloadTxt h now s).1 = s ∧
    (downloadTxt h now { s with messages := [] }).2.content = "" ∧
    (downloadTxt h now { s with messages := m₁ :: ms }).2.content =
      h.toUpperCase m₁.role ++ " - " ++ h.toLocaleString m₁.createdAt ++ "\n" ++ m₁.text ++
        "\n\n" ++ (downloadTxt h now { s with messages := ms }).2.content ∧
    (downloadTxt h now { s with messages := [m₁, m₂] }).2.content =
      h.toUpperCase m₁.role ++ " - " ++ h.toLocaleString m₁.createdAt ++ "\n" ++ m₁.text ++
        "\n\n" ++
      h.toUpperCase m₂.role ++ " - " ++ h.toLocaleString m₂.createdAt ++ "\n" ++ m₂.text ++
        "\n\n" := by
  refine ⟨rfl, rfl, ?_, ?_⟩
  · apply String.ext
    simp [downloadTxt, transcriptEntry, String.data_join, String.data_append]
  · apply String.ext
    simp [downloadTxt, transcriptEntry, String.data_join, String.data_append]

/-! ## Sequences of submissions -/

theorem userPrompt_submission (s : State) (x : Submission) :
    userPrompt x.fromPreset { s with prompt := x.draft, tone := x.tone, length := x.length } =
      x.text := by
  cases hx : x.fromPreset <;> simp [userPrompt, Submission.text, hx]

theorem submit_messages (s : State) (x : Submission) (hne : x.text ≠ "") :
    ∃ u a : Message, u.role = "user" ∧ a.role = "assistant" ∧
      (submit s x).messages = s.messages ++ [u, a] := by
  have hu := userPrompt_submission s x
  have h := handleSend_of_ne x.env x.fromPreset
    { s with prompt := x.draft, tone := x.tone, length := x.length } (by rw [hu]; exact hne)
  simp only [submit, h]
  exact ⟨_, _, rfl, rfl, rfl⟩

theorem roles_foldl_submit (xs : List Submission) (hne : ∀ x ∈ xs, x.text ≠ "") (s : State) :
    (xs.foldl submit s).messages.map Message.role =
      s.messages.map Message.role ++ (List.replicate xs.length ["user", "assistant"]).flatten := by
  induction xs generalizing s with
  | nil => simp
  | cons x xs ih =>
    obtain ⟨u, a, hu, ha, hm⟩ := submit_messages s x (hne x (List.mem_cons_self _ _))
    rw [List.foldl_cons, ih (fun y hy => hne y (List.mem_cons_of_mem _ hy)), hm]
    simp [List.replicate_succ, hu, ha]

theorem alternating_getElem? (u a : String) (n i : Nat) (hi : i < 2 * n) :
    (List.replicate n [u, a]).flatten[i]? = some (if i % 2 = 0 then u else a) := by
  induction n generalizing i with
  | zero => omega
  | succ n ih =>
    rw [List.replicate_succ, List.flatten_cons]
    match i with
    | 0 => simp
    | 1 => simp
    | j + 2 =>
      have : (j + 2) % 2 = j % 2 := by omega
      simp only [List.cons_append, List.nil_append, List.getElem?_cons_succ, this]
      exact ih j (by omega)

/-- C4: after any number N of submissions with non-empty prompt text, each run to
completion before the next starts, from an empty session, the message sequence
has exactly 2N entries and the entry at every even position has role `user`,
at every odd position role `assistant`.  (It holds whether the calls succeed or
fail.) -/
theorem submissions_alternate (xs : List Submission) (hne : ∀ x ∈ xs, x.text ≠ "") :
    (xs.foldl submit (mount [])).messages.length = 2 * xs.length ∧
    ∀ (i : Nat) (hi : i < (xs.foldl submit (mount [])).messages.length),
      ((xs.foldl submit (mount [])).messages[i]).role =
        if i % 2 = 0 then "user" else "assistant" := by
  have hr := roles_foldl_submit xs hne (mount [])
  simp only [mount, List.map_nil, List.nil_append] at hr
  have hlen : (xs.foldl submit (mount [])).messages.length = 2 * xs.length := by
    have := congrArg List.length hr
    simpa [Nat.mul_comm] using this
  refine ⟨hlen, fun i hi => ?_⟩
  have h1 : ((xs.foldl submit (mount [])).messages.map Message.role)[i]? =
      some ((xs.foldl submit (mount [])).messages[i]).role := by
    simp [List.getElem?_eq_getElem hi]
  rw [show (List.foldl submit (mount []) xs).messages.map Message.role = _ from hr, alternating_getElem? _ _ _ _ (hlen ▸ hi)] at h1
  exact (Option.some.inj h1).symm


/-- C4 at two submissions, a typed draft and a preset. -/
theorem submissions_alternate_witness :
    (twoSubmissions.foldl submit (mount [])).messages.length = 2 * twoSubmissions.length ∧
    ∀ (i : Nat) (hi : i < (twoSubmissions.foldl submit (mount [])).messages.length),
      ((twoSubmissions.foldl submit (mount [])).messages[i]).role =
        if i % 2 = 0 then "user" else "assistant" :=
  submissions_alternate twoSubmissions (by
    intro x hx
    simp only [twoSubmissions, List.mem_cons, List.mem_singleton, List.not_mem_nil, or_false] at hx
    rcases hx with rfl | rfl <;> decide)

/-! ## Message ids -/

/-- For the two labels `handleSend` uses, `uid` is injective in label and suffix. -/
theorem uid_inj {role role' r r' : String}
    (hrole : role = "user" ∨ role = "assistant") (hrole' : role' = "user" ∨ role' = "assistant")
    (h : uid role r = uid role' r') : role = role' ∧ r = r' := by
  have hd := congrArg String.data h
  simp only [uid, String.data_append] at hd
  rcases hrole with rfl | rfl <;> rcases hrole' with rfl | rfl
  · refine ⟨rfl, String.ext ?_⟩
    exact List.append_cancel_left hd
  · exact absurd hd (by simp)
  · exact absurd hd (by simp)
  · refine ⟨rfl, String.ext ?_⟩
    exact List.append_cancel_left hd

/-- What `handleSendBegin` does to the message sequence. -/
theorem handleSendBegin_messages (d : Draw) (fromPreset : Option Preset) (s : State) :
    (handleSendBegin d fromPreset s).1.messages = s.messages ∨
    ∃ m : Message, m.id = uid "user" d.rnd ∧
      (handleSendBegin d fromPreset s).1.messages = s.messages ++ [m] := by
  by_cases h : userPrompt fromPreset s = ""
  · left; rw [handleSendBegin_of_eq d fromPreset s h]
  · right; rw [handleSendBegin_of_ne d fromPreset s h]; exact ⟨_, rfl, rfl⟩

/-- What one event does to the message sequence: nothing, all messages removed,
or one message appended whose id is `uid` of the event's label and suffix. -/
theorem step_messages (s : State) (e : Event) :
    (step s e).messages = s.messages ∨
    (step s e).messages = [] ∨
    ∃ role r, ∃ m : Message, e.draw = some (role, r) ∧
      (role = "user" ∨ role = "assistant") ∧ m.id = uid role r ∧
      (step s e).messages = s.messages ++ [m] := by
  cases e with
  | setPrompt text => left; rfl
  | setTone tone => left; rfl
  | setLength length => left; rfl
  | generate d =>
    simp only [step, clickGenerate]
    split
    · left; rfl
    · rcases handleSendBegin_messages d none s with h | ⟨m, hm, h⟩
      · left; exact h
      · right; right; exact ⟨"user", d.rnd, m, rfl, Or.inl rfl, hm, h⟩
  | keyDown d e =>
    simp only [step, handleKeyDownPrompt]
    split
    · rcases handleSendBegin_messages d none s with h | ⟨m, hm, h⟩
      · left; exact h
      · right; right; exact ⟨"user", d.rnd, m, rfl, Or.inl rfl, hm, h⟩
    · left; rfl
  | preset d p =>
    simp only [step, handlePresetClick]
    rcases handleSendBegin_messages d (some p) { s with selectedPreset := some p.id } with
      h | ⟨m, hm, h⟩
    · left; exact h
    · right; right; exact ⟨"user", d.rnd, m, rfl, Or.inl rfl, hm, h⟩
  | settle d outcome =>
    right; right
    cases outcome with
    | ok text => exact ⟨"assistant", d.rnd, _, rfl, Or.inr rfl, rfl, rfl⟩
    | error err => exact ⟨"assistant", d.rnd, _, rfl, Or.inr rfl, rfl, rfl⟩
  | clear confirmed =>
    cases confirmed
    · left; rfl
    · right; left; rfl

/-- Along any sequence of events whose calls of `uid` are pairwise distinct
together with the calls already made, the invariant `IdsFrom` is kept. -/
theorem run_ids_nodup (events : List Event) (s : State) (calls : List (String × String))
    (hinv : IdsFrom calls s) (hnd : (calls ++ uidCalls s events).Nodup) :
    ((run s events).messages.map Message.id).Nodup := by
  induction events generalizing s calls with
  | nil => exact hinv.1
  | cons e es ih =>
    simp only [run, List.foldl_cons]
    simp only [uidCalls] at hnd
    rcases step_messages s e with h | h | ⟨role, r, m, hdraw, hrole, hid, h⟩
    · have hlen : ¬ (step s e).messages.length = s.messages.length + 1 := by
        rw [h]; omega
      rw [if_neg hlen, List.nil_append] at hnd
      exact ih (step s e) calls (by unfold IdsFrom; rw [h]; exact hinv) hnd
    · refine ih (step s e) calls (by unfold IdsFrom; rw [h]; simp) ?_
      exact hnd.sublist (List.Sublist.append_left (List.sublist_append_right _ _) _)
    · have hlen : (step s e).messages.length = s.messages.length + 1 := by
        rw [h]; simp
      rw [if_pos hlen, hdraw, Option.toList_some, ← List.append_assoc] at hnd
      refine ih (step s e) (calls ++ [(role, r)]) ?_ hnd
      have hfresh : (role, r) ∉ calls := by
        have := (List.nodup_append.mp (List.nodup_append.mp hnd).1).2.2
        intro hmem
        exact this hmem (List.mem_singleton_self _)
      constructor
      · rw [h, List.map_append, List.nodup_append]
        refine ⟨hinv.1, by simp, ?_⟩
        intro x hx hx'
        simp only [List.map_cons, List.map_nil, List.mem_singleton] at hx'
        obtain ⟨m', hm', rfl⟩ := List.mem_map.mp hx
        obtain ⟨role', r', hmem, hrole', hid'⟩ := hinv.2 m' hm'
        rw [hid', hid] at hx'
        obtain ⟨h1, h2⟩ := uid_inj hrole' hrole hx'
        exact hfresh (h1 ▸ h2 ▸ hmem)
      · intro m' hm'
        rw [h, List.mem_append, List.mem_singleton] at hm'
        rcases hm' with hm' | rfl
        · obtain ⟨role', r', hmem, hrole', hid'⟩ := hinv.2 m' hm'
          exact ⟨role', r', List.mem_append_left _ hmem, hrole', hid'⟩
        · exact ⟨role, r, List.mem_append_right _ (List.mem_singleton_self _), hrole, hid⟩


/-- C10 as stated fails: `uid` draws a random suffix and nothing checks it
against the ids in use, so when two draws for user messages agree, two messages
of the session carry the same id. -/
theorem ids_collide :
    (run (mount []) collidingEvents).messages.map Message.id =
      ["user_k3x9a2b", "assistant_p0q8r7s", "user_k3x9a2b"] ∧
    ¬ ((run (mount []) collidingEvents).messages.map Message.id).Nodup := by
  decide

/-- C10 amended: in every session reached from an empty one by any sequence of
events (submissions by button, key or preset, calls resolving in any order,
edits, clears), the ids of the messages are pairwise distinct, provided no two
calls of `uid` with the same label drew the same random suffix. -/
theorem ids_distinct (events : List Event)
    (h : (uidCalls (mount []) events).Nodup) :
    ((run (mount []) events).messages.map Message.id).Nodup :=
  run_ids_nodup events (mount []) [] ⟨by simp [mount], by simp [mount]⟩ (by simpa using h)

/-- C10 amended, at two overlapping submissions with four different suffixes. -/
theorem ids_distinct_witness :
    ((run (mount []) overlappingEvents).messages.map Message.id).Nodup :=
  ids_distinct overlappingEvents (by decide)

end ChatInterface
